import Mathlib

/-!
Verification of the resolution-and-fetch pipeline of `spotifydownload.py`
(class `SpotifyYouTubeDownloader`), shallowly embedded in Lean.

External collaborators (the Spotify web API, the YouTube Music search index,
the yt-dlp toolchain, the filesystem) are modelled as explicit oracle
parameters; the Python functions become Lean functions of those oracles,
mirroring the source control flow line by line.
-/

namespace Spotwitch

/-- A track as read by the pipeline: `track['artists']` (a list of artist
names; only `[0]['name']` is ever consulted) and `track['name']`.  The
`album` field is read at line 182 of the source but never used afterwards,
so it is omitted. -/
structure TrackInfo where
  artists : List String
  name : String
  deriving DecidableEq, Repr

/-- The character class of `re.sub(r'[\\/*?:"<>|]', "", s)` (lines 185-186):
the nine characters stripped from titles and artist names. -/
def forbiddenChars : List Char := ['\\', '/', '*', '?', ':', '\"', '<', '>', '|']

/-- `re.sub(r'[\\/*?:"<>|]', "", s)`: delete every occurrence of a character
of `forbiddenChars` (replacement by the empty string = per-character
deletion). -/
def sanitize (s : String) : String :=
  ⟨s.data.filter (fun c => !(forbiddenChars.contains c))⟩

/-! ### Filesystem paths

`os.path.join` on POSIX, restricted to two components, as implemented in
CPython's `posixpath.join`: an absolute second component replaces the first;
otherwise the components are joined with exactly one separator, and a second
component equal to `""` leaves a trailing separator on the first. -/

/-- Whether a character list begins with `/`. -/
def headIsSlash : List Char → Bool
  | [] => false
  | c :: _ => c == '/'

/-- `b.startswith('/')`. -/
def startsWithSlash (s : String) : Bool := headIsSlash s.data

/-- `a.endswith('/')`. -/
def endsWithSlash (s : String) : Bool :=
  match s.data.getLast? with
  | none => false
  | some c => c == '/'

/-- `os.path.join(a, b)` (POSIX, two components). -/
def pathJoin (a b : String) : String :=
  if startsWithSlash b then b
  else if a = "" || endsWithSlash a then a ++ b
  else a ++ "/" ++ b

/-! ### Catalog Client (`get_playlists`, `get_playlist_tracks`)

The remote catalog serves its listings in pages; the wire format gives each
response an `items` list and a `next` link that is truthy exactly when more
pages follow.  A service response is modelled as the ordered list of pages
it would serve (`next` of page `i` is truthy iff pages after `i` remain);
only the `items` payloads matter to the code, so a page is its item list. -/

/-- The three fields of a playlist object that `get_playlists` reads:
`item['id']`, `item['name']`, `item['tracks']['total']` (lines 100-105).
Other response fields are never consulted. -/
structure ApiPlaylist where
  id : String
  name : String
  tracks_total : Nat
  deriving DecidableEq, Repr

/-- The dict `{'id': ..., 'name': ..., 'tracks': ...}` built per playlist at
lines 101-105. -/
structure Playlist where
  id : String
  name : String
  tracks : Nat
  deriving DecidableEq, Repr

/-- `get_playlists` (lines 87-107): one call to
`sp.current_user_playlists()` returning the first page, then a single pass
over `results['items']` building the projected dicts.  There is no
`while results['next']` loop in this function, so only the first served
page is read. -/
def get_playlists (pages : List (List ApiPlaylist)) : List Playlist :=
  match pages with
  | [] => []
  | p0 :: _ => p0.map (fun it => ⟨it.id, it.name, it.tracks_total⟩)

/-- The `while results['next']: results = sp.next(results);
tracks.extend(results['items'])` loop of `get_playlist_tracks`
(lines 144-146), started with the items of the first page. -/
def extendLoop {α : Type} (tracks : List α) : List (List α) → List α
  | [] => tracks
  | p :: rest => extendLoop (tracks ++ p) rest

/-- `get_playlist_tracks` (lines 128-148): fetch the first page with
`sp.playlist_tracks`, then follow `next` links, extending the accumulated
item list, until `next` is falsy. -/
def get_playlist_tracks {α : Type} (pages : List (List α)) : List α :=
  match pages with
  | [] => []
  | p0 :: rest => extendLoop p0 rest

/-- `get_playlist_tracks` under a fallible transport: `svc n` is what the
n-th attempt at the initial `sp.playlist_tracks` request would yield
(`Except.error ()` = the underlying HTTP call raises).  The source performs
the request exactly once — attempt `0` — inside no `try`, so an error
propagates to the caller unchanged and later attempts never happen. -/
def get_playlist_tracks_attempted {α : Type}
    (svc : Nat → Except Unit (List (List α))) : Except Unit (List α) :=
  match svc 0 with
  | .error e => .error e
  | .ok pages => .ok (get_playlist_tracks pages)

/-! ### Search Resolver (`search_youtube_music`)

The external index is an oracle from the query string to either an
exception (`Except.error ()` — the `ytmusic.search` call raises) or the
result list; each result is modelled by its `'videoId'` field, the only
field the code reads. -/

/-- `search_youtube_music` (lines 150-167): build the query
`f"{track_name} {artist_name}"`, call the index, return `None` if the
result list is falsy, else `results[0]['videoId']`.  The call is inside no
`try`, so an index exception propagates to the caller. -/
def search_youtube_music (idx : String → Except Unit (List String))
    (track_name artist_name : String) : Except Unit (Option String) :=
  match idx (track_name ++ " " ++ artist_name) with
  | .error e => .error e
  | .ok [] => .ok none
  | .ok (v :: _) => .ok (some v)

/-! ### Fetch Engine (`download_track`) -/

/-- One invocation of the yt-dlp toolchain (`ydl.download([video_url])`,
line 213): whether the call raised an exception, and whether the output
file exists on disk afterwards.  The source observes only `raised` — it
never consults the filesystem after the call. -/
structure ToolchainRun where
  raised : Bool
  fileExists : Bool
  deriving DecidableEq, Repr

/-- What one call of `download_track` (lines 169-217) computes: its return
value `ok` (`True` iff `ydl.download` raised no exception), the
`artist_dir` it ensured, the `outtmpl` handed to yt-dlp, and whether
`os.makedirs` was invoked (it is iff `os.path.exists(artist_dir)` was
falsy at the guard on line 190). -/
structure DownloadResult where
  ok : Bool
  artist_dir : String
  outtmpl : String
  madeDir : Bool
  deriving DecidableEq, Repr

/-- `download_track` (lines 169-217).  `dirExists` is the
`os.path.exists` oracle; `run` the outcome of the single toolchain
invocation for this call. -/
def download_track (dirExists : String → Bool) (run : ToolchainRun)
    (download_dir : String) (track : TrackInfo) : DownloadResult :=
  let artist := track.artists.headD ""
  let title := track.name
  let safe_title := sanitize title
  let safe_artist := sanitize artist
  let artist_dir := pathJoin download_dir safe_artist
  let madeDir := !(dirExists artist_dir)
  let outtmpl := pathJoin artist_dir (safe_title ++ ".%(ext)s")
  { ok := !run.raised, artist_dir := artist_dir, outtmpl := outtmpl,
    madeDir := madeDir }

/-! ### Pipeline Orchestrator (`process_playlist`, lines 219-257)

Each iteration of the `for i, item in enumerate(tracks)` loop either
unwinds on an uncaught exception out of `search_youtube_music`, skips a
track whose search came back falsy, or calls `download_track` (which
catches its own exceptions and returns a Bool).  `fetch v t` is the Bool
`download_track(video_id, track)` returns for video id `v` and track `t`. -/

/-- The observable outcome of one loop iteration. -/
inductive StepResult
  | notFound
  | fetched (video_id : String) (ok : Bool)
  deriving DecidableEq, Repr

/-- The video ids handed to `download_track` during one iteration — the
only way the pipeline can write a file for a track. -/
def fetchCalls : StepResult → List String
  | .notFound => []
  | .fetched v _ => [v]

/-- `fetchCalls` through the possible unwinding of the iteration. -/
def stepFetchCalls : Except Unit StepResult → List String
  | .error _ => []
  | .ok r => fetchCalls r

/-- One iteration of the loop body (lines 240-257): search, then either the
`if not video_id` skip branch (note: Python falsiness, so an empty-string
video id also skips) or the download.  An exception from the search
unwinds the iteration. -/
def process_track (idx : String → Except Unit (List String))
    (fetch : String → TrackInfo → Bool) (t : TrackInfo) :
    Except Unit StepResult :=
  match search_youtube_music idx t.name (t.artists.headD "") with
  | .error e => .error e
  | .ok none => .ok .notFound
  | .ok (some v) =>
      if v = "" then .ok .notFound else .ok (.fetched v (fetch v t))

/-- The whole loop.  Returns the per-iteration trace in input order
together with `true` when the loop ran to completion, or the trace of the
iterations that finished together with `false` when an uncaught exception
unwound it.  (The Python function itself returns `None` and accumulates
nothing; the trace records what each iteration did.) -/
def process_playlist (idx : String → Except Unit (List String))
    (fetch : String → TrackInfo → Bool) :
    List TrackInfo → List (TrackInfo × StepResult) × Bool
  | [] => ([], true)
  | t :: rest =>
    match process_track idx fetch t with
    | .error _ => ([], false)
    | .ok r =>
        let p := process_playlist idx fetch rest
        ((t, r) :: p.1, p.2)

/-- The per-track console messages the loop and `download_track` emit: a
`Could not find` line for a falsy search result (line 251), an
`Error downloading` line when the toolchain raised (line 216), and nothing
at all for a successful download. -/
def step_messages (t : TrackInfo) : StepResult → List String
  | .notFound =>
      ["Could not find: " ++ t.name ++ " - " ++ t.artists.headD ""]
  | .fetched _ ok =>
      if ok then [] else ["Error downloading " ++ t.name]

/-- All per-track messages of a run, in order. -/
def run_messages (trace : List (TrackInfo × StepResult)) : List String :=
  (trace.map (fun p => step_messages p.1 p.2)).flatten

/-! ## Theorems -/

/-- C8 -- For every string, every character of the sanitized output is
outside the stripped character set `\\ / * ? : \" < > |`: sanitization
removes every occurrence of those characters, so the output cannot inject a
path separator. -/
theorem C8_sanitize_removes_forbidden (s : String) (c : Char)
    (h : c ∈ (sanitize s).data) : c ∉ forbiddenChars := by
  have h' : c ∈ s.data.filter (fun c => !(forbiddenChars.contains c)) := h
  rw [List.mem_filter] at h'
  intro hc
  have := h'.2
  simp [List.contains_eq_any_beq] at this
  exact this hc

/-- Concrete instantiation of `C8_sanitize_removes_forbidden`: the character
`a` survives sanitization of `"a/b"` and is not in the stripped set. -/
theorem C8_witness :
    'a' ∈ (sanitize "a/b").data ∧ 'a' ∉ forbiddenChars :=
  ⟨by decide, C8_sanitize_removes_forbidden "a/b" 'a' (by decide)⟩

/-- C9 -- Sanitization is idempotent: stripping the forbidden characters a
second time changes nothing. -/
theorem C9_sanitize_idempotent (s : String) :
    sanitize (sanitize s) = sanitize s := by
  show (⟨(s.data.filter _).filter _⟩ : String) = ⟨s.data.filter _⟩
  rw [List.filter_filter]
  simp

/-- Helper: the accumulating `while` loop appends the remaining pages in
order. -/
theorem extendLoop_eq {α : Type} (pages : List (List α)) (acc : List α) :
    extendLoop acc pages = acc ++ pages.flatten := by
  induction pages generalizing acc with
  | nil => simp [extendLoop]
  | cons p rest ih => simp [extendLoop, ih]

/-- C5 -- corrected: `get_playlist_tracks` is fully paginated (it returns
the concatenation of every served page, in order), but `get_playlists`
reads only `results['items']` of the first response and never follows
`results['next']`, so it returns only the first page of collections. -/
theorem C5_listTracks_paginated_listCollections_first_page :
    (∀ pages : List (List TrackInfo),
      get_playlist_tracks pages = pages.flatten) ∧
    (∀ (p0 : List ApiPlaylist) (rest : List (List ApiPlaylist)),
      get_playlists (p0 :: rest) =
        p0.map (fun it => ⟨it.id, it.name, it.tracks_total⟩)) := by
  constructor
  · intro pages
    cases pages with
    | nil => rfl
    | cons p0 rest => simp [get_playlist_tracks, extendLoop_eq]
  · intro p0 rest
    rfl

/-- C5 -- counterexample to the claim as stated: when the catalog serves
the user's collections in two pages, `get_playlists` returns only the
collection of the first page; the collection of the second page is
missing from the result, so `listCollections` is not fully paginated. -/
theorem C5_counterexample :
    get_playlists [[⟨"p1", "one", 1⟩], [⟨"p2", "two", 2⟩]] =
      [⟨"p1", "one", 1⟩] ∧
    (⟨"p2", "two", 2⟩ : Playlist) ∉
      get_playlists [[⟨"p1", "one", 1⟩], [⟨"p2", "two", 2⟩]] := by
  constructor
  · rfl
  · decide

/-- C4 -- corrected (amended claim): a transient failure of the listing
request is not retried at all — `get_playlist_tracks` performs the request
exactly once and an error on that single attempt propagates immediately to
the caller as a fatal error, with no backoff and no further attempts. -/
theorem C4_no_retry_on_listing_failure
    (svc : Nat → Except Unit (List (List TrackInfo)))
    (h : svc 0 = .error ()) :
    get_playlist_tracks_attempted svc = .error () := by
  simp [get_playlist_tracks_attempted, h]

/-- Concrete instantiation of `C4_no_retry_on_listing_failure`. -/
theorem C4_witness :
    (fun n => if n = 0 then (Except.error () : Except Unit (List (List TrackInfo)))
              else .ok []) 0 = .error () ∧
    get_playlist_tracks_attempted
      (fun n => if n = 0 then (Except.error () : Except Unit (List (List TrackInfo)))
                else .ok []) = .error () :=
  ⟨rfl, C4_no_retry_on_listing_failure _ rfl⟩

/-- C4 -- counterexample to the claim as stated: a service whose first
attempt fails transiently but whose second attempt would succeed.  The
code escalates the first failure to a fatal error even though one retry —
let alone three attempts with exponential backoff — would have obtained
the tracks. -/
theorem C4_counterexample :
    get_playlist_tracks_attempted
      (fun n => if n = 0 then .error ()
                else .ok [[TrackInfo.mk ["a"] "t"]]) = .error () ∧
    (fun n => if n = 0 then (Except.error () : Except Unit (List (List TrackInfo)))
              else .ok [[TrackInfo.mk ["a"] "t"]]) 1 =
      .ok [[TrackInfo.mk ["a"] "t"]] :=
  ⟨rfl, rfl⟩

/-- C3 -- corrected (amended claim): the resolver returns an absent
candidate whenever the index returns zero results; but an index error is
not converted — the `ytmusic.search` call sits inside no `try`, so the
error propagates to the caller. -/
theorem C3_zero_results_absent (idx : String → Except Unit (List String))
    (track_name artist_name : String)
    (h : idx (track_name ++ " " ++ artist_name) = .ok []) :
    search_youtube_music idx track_name artist_name = .ok none := by
  unfold search_youtube_music
  rw [h]

/-- Concrete instantiation of `C3_zero_results_absent`. -/
theorem C3_witness :
    (fun _ : String => (Except.ok [] : Except Unit (List String)))
      ("t" ++ " " ++ "a") = .ok [] ∧
    search_youtube_music (fun _ => .ok []) "t" "a" = .ok none :=
  ⟨rfl, C3_zero_results_absent _ "t" "a" rfl⟩

/-- C3 -- counterexample to the claim as stated: when the index fails with
an error, `search_youtube_music` does not return an absent candidate — it
propagates the error. -/
theorem C3_counterexample :
    search_youtube_music (fun _ => .error ()) "t" "a" = .error () ∧
    search_youtube_music (fun _ => .error ()) "t" "a" ≠ .ok none := by
  refine ⟨rfl, ?_⟩
  intro h
  exact Except.noConfusion h

/-- C6 -- corrected (amended claim): `download_track` reports success iff
the single toolchain invocation raised no exception; whether the output
file exists on disk is never consulted — the whole observable result of
the call is independent of it. -/
theorem C6_success_iff_no_exception (dirExists : String → Bool)
    (raised fe1 fe2 : Bool) (download_dir : String) (track : TrackInfo) :
    ((download_track dirExists ⟨raised, fe1⟩ download_dir track).ok = true ↔
      raised = false) ∧
    download_track dirExists ⟨raised, fe1⟩ download_dir track =
      download_track dirExists ⟨raised, fe2⟩ download_dir track := by
  constructor
  · simp [download_track]
  · rfl

/-- C6 -- counterexample to the claim as stated: a run in which the
toolchain exits cleanly but the output file does not exist on disk.  The
code still reports success, contradicting "Success iff the output file
exists and the toolchain reported zero exit status". -/
theorem C6_counterexample :
    (download_track (fun _ => true) ⟨false, false⟩ "/d"
      (TrackInfo.mk ["a"] "t")).ok = true ∧
    (ToolchainRun.mk false false).fileExists = false :=
  ⟨rfl, rfl⟩

/-- C7 -- A track whose search yields zero results takes the
`if not video_id` branch: its outcome is not-found and `download_track`
is never invoked for it, so no file is written for that track. -/
theorem C7_zero_results_notfound_no_fetch
    (idx : String → Except Unit (List String))
    (fetch : String → TrackInfo → Bool) (t : TrackInfo)
    (h : idx (t.name ++ " " ++ t.artists.headD "") = .ok []) :
    process_track idx fetch t = .ok .notFound ∧
    stepFetchCalls (process_track idx fetch t) = [] := by
  have hs : search_youtube_music idx t.name (t.artists.headD "") = .ok none := by
    unfold search_youtube_music
    rw [h]
  have hp : process_track idx fetch t = .ok .notFound := by
    unfold process_track
    rw [hs]
  exact ⟨hp, by rw [hp]; rfl⟩

/-- Concrete instantiation of `C7_zero_results_notfound_no_fetch`. -/
theorem C7_witness :
    (fun _ : String => (Except.ok [] : Except Unit (List String)))
      ((TrackInfo.mk ["a"] "s").name ++ " " ++
        (TrackInfo.mk ["a"] "s").artists.headD "") = .ok [] ∧
    process_track (fun _ => .ok []) (fun _ _ => true)
      (TrackInfo.mk ["a"] "s") = .ok .notFound ∧
    stepFetchCalls (process_track (fun _ => .ok []) (fun _ _ => true)
      (TrackInfo.mk ["a"] "s")) = [] :=
  ⟨rfl, C7_zero_results_notfound_no_fetch _ _ _ rfl⟩

/-- Helper: when the index answers the track's query without raising, the
iteration for that track finishes with some step result. -/
theorem process_track_ok_of_idx_ok (idx : String → Except Unit (List String))
    (fetch : String → TrackInfo → Bool) (t : TrackInfo) (rs : List String)
    (hrs : idx (t.name ++ " " ++ t.artists.headD "") = .ok rs) :
    ∃ r, process_track idx fetch t = .ok r := by
  cases rs with
  | nil =>
    have hs : search_youtube_music idx t.name (t.artists.headD "") =
        .ok none := by
      unfold search_youtube_music
      rw [hrs]
    exact ⟨.notFound, by unfold process_track; rw [hs]⟩
  | cons v vs =>
    have hs : search_youtube_music idx t.name (t.artists.headD "") =
        .ok (some v) := by
      unfold search_youtube_music
      rw [hrs]
    by_cases hv : v = ""
    · refine ⟨.notFound, ?_⟩
      unfold process_track
      rw [hs]
      simp [hv]
    · refine ⟨.fetched v (fetch v t), ?_⟩
      unfold process_track
      rw [hs]
      simp [hv]

/-- C1 -- corrected (amended claim): when no call to the search index
raises, the loop runs to completion and its iteration trace has exactly one
entry per input track, in input order — no track is skipped by the loop.
(The unamended parts fail: see `C1_counterexample`.) -/
theorem C1_all_tracks_processed (idx : String → Except Unit (List String))
    (fetch : String → TrackInfo → Bool) (tracks : List TrackInfo)
    (h : ∀ q, ∃ rs, idx q = .ok rs) :
    (process_playlist idx fetch tracks).1.map Prod.fst = tracks ∧
    (process_playlist idx fetch tracks).2 = true := by
  induction tracks with
  | nil => exact ⟨rfl, rfl⟩
  | cons t rest ih =>
    obtain ⟨rs, hrs⟩ := h (t.name ++ " " ++ t.artists.headD "")
    obtain ⟨r, hr⟩ := process_track_ok_of_idx_ok idx fetch t rs hrs
    constructor
    · show (process_playlist idx fetch (t :: rest)).1.map Prod.fst = t :: rest
      unfold process_playlist
      rw [hr]
      simpa using ih.1
    · show (process_playlist idx fetch (t :: rest)).2 = true
      unfold process_playlist
      rw [hr]
      simpa using ih.2

/-- Concrete instantiation of `C1_all_tracks_processed`: a one-track batch
under an index that always finds a video. -/
theorem C1_witness :
    (∀ q : String, ∃ rs,
      (fun _ : String => (Except.ok ["v1"] : Except Unit (List String))) q =
        .ok rs) ∧
    (process_playlist (fun _ => .ok ["v1"]) (fun _ _ => true)
      [TrackInfo.mk ["a"] "s"]).1.map Prod.fst = [TrackInfo.mk ["a"] "s"] ∧
    (process_playlist (fun _ => .ok ["v1"]) (fun _ _ => true)
      [TrackInfo.mk ["a"] "s"]).2 = true :=
  ⟨fun _ => ⟨["v1"], rfl⟩,
   C1_all_tracks_processed _ _ _ (fun _ => ⟨["v1"], rfl⟩)⟩

/-- C1 -- counterexample to the claim as stated: a one-track batch that
searches and downloads successfully.  The run completes, yet the loop
emits no message identifying the track or its fate (success tracks print
nothing), the function returns `None`, and no accumulated result exists —
so the track's fate is not individually reportable at the end of the run. -/
theorem C1_counterexample :
    (process_playlist (fun _ => .ok ["v1"]) (fun _ _ => true)
      [TrackInfo.mk ["a"] "s"]).2 = true ∧
    run_messages (process_playlist (fun _ => .ok ["v1"]) (fun _ _ => true)
      [TrackInfo.mk ["a"] "s"]).1 = [] := by
  constructor
  · rfl
  · rfl

/-- C2 -- corrected (amended claim): a fetch failure never halts or skews
the batch — the set and order of processed tracks and whether the loop
completes are entirely independent of the fetch oracle, because
`download_track` catches its own exceptions and returns a Bool the loop
ignores for control flow.  (The resolver-error part of the claim fails:
see `C2_counterexample`.) -/
theorem C2_fetch_outcomes_never_halt (idx : String → Except Unit (List String))
    (f g : String → TrackInfo → Bool) (tracks : List TrackInfo) :
    (process_playlist idx f tracks).2 = (process_playlist idx g tracks).2 ∧
    (process_playlist idx f tracks).1.map Prod.fst =
      (process_playlist idx g tracks).1.map Prod.fst := by
  induction tracks with
  | nil => exact ⟨rfl, rfl⟩
  | cons t rest ih =>
    cases hs : search_youtube_music idx t.name (t.artists.headD "") with
    | error e =>
      have hf : process_track idx f t = .error e := by
        unfold process_track; rw [hs]
      have hg : process_track idx g t = .error e := by
        unfold process_track; rw [hs]
      constructor
      · show (process_playlist idx f (t :: rest)).2 =
            (process_playlist idx g (t :: rest)).2
        unfold process_playlist
        rw [hf, hg]
      · show (process_playlist idx f (t :: rest)).1.map Prod.fst =
            (process_playlist idx g (t :: rest)).1.map Prod.fst
        unfold process_playlist
        rw [hf, hg]
    | ok o =>
      have step : ∀ (fo : String → TrackInfo → Bool), ∃ r,
          process_track idx fo t = .ok r := by
        intro fo
        unfold process_track
        rw [hs]
        cases o with
        | none => exact ⟨.notFound, rfl⟩
        | some v =>
          by_cases hv : v = ""
          · exact ⟨.notFound, by simp [hv]⟩
          · exact ⟨.fetched v (fo v t), by simp [hv]⟩
      obtain ⟨rf, hf⟩ := step f
      obtain ⟨rg, hg⟩ := step g
      constructor
      · show (process_playlist idx f (t :: rest)).2 =
            (process_playlist idx g (t :: rest)).2
        unfold process_playlist
        rw [hf, hg]
        simpa using ih.1
      · show (process_playlist idx f (t :: rest)).1.map Prod.fst =
            (process_playlist idx g (t :: rest)).1.map Prod.fst
        unfold process_playlist
        rw [hf, hg]
        simpa using ih.2

/-- C2 -- counterexample to the claim as stated: a two-track batch whose
search index raises on the first query.  The resolver error is not caught
and not converted into the track's outcome — the loop unwinds immediately,
the trace is empty and the second track is never processed, although the
error is neither `AuthExpired` nor a cancellation. -/
theorem C2_counterexample :
    process_playlist (fun _ => .error ()) (fun _ _ => true)
      [TrackInfo.mk ["a"] "s1", TrackInfo.mk ["b"] "s2"] = ([], false) :=
  rfl

/-- Helper: a string made only of stripped characters sanitizes to the
empty string. -/
theorem sanitize_eq_empty (s : String)
    (h : ∀ c ∈ s.data, c ∈ forbiddenChars) : sanitize s = "" := by
  apply String.ext
  show s.data.filter (fun c => !(forbiddenChars.contains c)) = ("" : String).data
  have he : ("" : String).data = [] := rfl
  rw [he, List.filter_eq_nil_iff]
  intro a ha
  simp [List.contains_eq_any_beq]
  exact h a ha

/-- Helper: prefixing by a sanitized string cannot introduce a leading `/`. -/
theorem startsWithSlash_sanitize_append (s r : String)
    (h : startsWithSlash r = false) :
    startsWithSlash (sanitize s ++ r) = false := by
  unfold startsWithSlash at *
  have hd : (sanitize s ++ r).data =
      (s.data.filter fun c => !(forbiddenChars.contains c)) ++ r.data := rfl
  rw [hd]
  cases hf : s.data.filter (fun c => !(forbiddenChars.contains c)) with
  | nil => simpa using h
  | cons c cs =>
    have hc : c ∈ s.data.filter (fun c => !(forbiddenChars.contains c)) := by
      rw [hf]
      exact List.mem_cons_self _ _
    rw [List.mem_filter] at hc
    have hcf : c ∉ forbiddenChars := by
      have hb := hc.2
      simp [List.contains_eq_any_beq] at hb
      exact hb
    have hcs : c ≠ '/' := by
      intro he
      exact hcf (he ▸ (by decide : ('/' : Char) ∈ forbiddenChars))
    show headIsSlash (c :: (cs ++ r.data)) = false
    simp [headIsSlash, hcs]

/-- Helper: appending `/` makes the last character a slash. -/
theorem endsWithSlash_append_slash (s : String) :
    endsWithSlash (s ++ "/") = true := by
  unfold endsWithSlash
  have hd : (s ++ "/").data = s.data ++ ['/'] := rfl
  rw [hd, List.getLast?_concat]
  rfl

/-- C10 -- A track whose primary artist consists entirely of the stripped
character set sanitizes to the empty artist; `os.path.join` then yields
the base directory (with a trailing separator) as the artist directory,
which already exists, so the `os.makedirs` guard skips directory creation
(no error), and the output template places the file directly under the
base download directory. -/
theorem C10_all_forbidden_artist (dirExists : String → Bool)
    (run : ToolchainRun) (download_dir : String) (t : TrackInfo)
    (h1 : ∀ c ∈ (t.artists.headD "").data, c ∈ forbiddenChars)
    (h2 : endsWithSlash download_dir = false)
    (h3 : download_dir ≠ "")
    (h4 : dirExists (download_dir ++ "/") = true) :
    sanitize (t.artists.headD "") = "" ∧
    (download_track dirExists run download_dir t).artist_dir =
      download_dir ++ "/" ∧
    (download_track dirExists run download_dir t).madeDir = false ∧
    (download_track dirExists run download_dir t).outtmpl =
      (download_dir ++ "/") ++ (sanitize t.name ++ ".%(ext)s") := by
  have hempty : sanitize (t.artists.headD "") = "" := sanitize_eq_empty _ h1
  have hadir : pathJoin download_dir (sanitize (t.artists.headD "")) =
      download_dir ++ "/" := by
    rw [hempty]
    unfold pathJoin
    have hsw : startsWithSlash "" = false := rfl
    rw [hsw]
    simp [h2, h3]
  have hb : startsWithSlash (sanitize t.name ++ ".%(ext)s") = false :=
    startsWithSlash_sanitize_append t.name ".%(ext)s" rfl
  have hout : pathJoin (download_dir ++ "/") (sanitize t.name ++ ".%(ext)s") =
      (download_dir ++ "/") ++ (sanitize t.name ++ ".%(ext)s") := by
    unfold pathJoin
    rw [hb, endsWithSlash_append_slash]
    simp
  refine ⟨hempty, ?_, ?_, ?_⟩
  · show pathJoin download_dir (sanitize (t.artists.headD "")) =
        download_dir ++ "/"
    exact hadir
  · show (!(dirExists (pathJoin download_dir
        (sanitize (t.artists.headD ""))))) = false
    rw [hadir, h4]
    rfl
  · show pathJoin (pathJoin download_dir (sanitize (t.artists.headD "")))
        (sanitize t.name ++ ".%(ext)s") =
        (download_dir ++ "/") ++ (sanitize t.name ++ ".%(ext)s")
    rw [hadir]
    exact hout

/-- Concrete instantiation of `C10_all_forbidden_artist`: artist `***`,
base directory `/music` (existing). -/
theorem C10_witness :
    (∀ c ∈ ((TrackInfo.mk ["***"] "song").artists.headD "").data,
      c ∈ forbiddenChars) ∧
    endsWithSlash "/music" = false ∧
    "/music" ≠ "" ∧
    (fun s => s == "/music/") ("/music" ++ "/") = true ∧
    (sanitize ((TrackInfo.mk ["***"] "song").artists.headD "") = "" ∧
     (download_track (fun s => s == "/music/") (ToolchainRun.mk false true)
        "/music" (TrackInfo.mk ["***"] "song")).artist_dir =
       "/music" ++ "/" ∧
     (download_track (fun s => s == "/music/") (ToolchainRun.mk false true)
        "/music" (TrackInfo.mk ["***"] "song")).madeDir = false ∧
     (download_track (fun s => s == "/music/") (ToolchainRun.mk false true)
        "/music" (TrackInfo.mk ["***"] "song")).outtmpl =
       ("/music" ++ "/") ++ (sanitize (TrackInfo.mk ["***"] "song").name ++
         ".%(ext)s")) :=
  ⟨by decide, by decide, by decide, by decide,
   C10_all_forbidden_artist _ _ _ _ (by decide) (by decide) (by decide)
     (by decide)⟩

end Spotwitch
